import Mathlib

/-!
Shallow embedding of the record-resolution and field-mapping pipeline of the
`bilandracdraaf` repository (files `grist_connector.py`, `app.py`,
`ds_prefiller.py`), together with theorems settling the specification claims.

Modelling conventions:
* JSON scalars and containers are modelled by the inductive `Json`.  Floats do
  not occur in the claims and are not modelled.
* A Python dict is an association list whose lookups take the first matching
  key; `pySet` mirrors Python dict assignment (in-place update keeps key order).
* A pandas `DataFrame` built from a list of row dicts is modelled as that list
  of rows; its column index is the union of the row keys in first-appearance
  order (`dfColumns`).  A row lacking a column behaves as `NaN` in element-wise
  comparisons: it compares unequal to everything (`rowCellEq`), which is the
  pandas behaviour the code relies on.  Converting a selected row back to a
  dict (`iloc[0].to_dict()`) pads it with every column of the DataFrame, the
  missing cells bound to `NaN` (`padRow`).
* Fallible Python code is modelled with `Except`/`Option`; a raised exception
  is the `.error`/`none` branch carrying the exception text.
* An HTTP interaction is an explicit input (`FetchOutcome`, `HttpOutcome`,
  `DsOutcome`): either a transport exception or a response with status code,
  raw text and parsed JSON body, so each function is a pure function of the
  response it would receive.
-/

/-- JSON values as they appear in Grist / Démarches Simplifiées responses,
plus `nan`: the `float(nan)` cell pandas substitutes for a value missing from
a row when the DataFrame has the column (no other float occurs in the claims).
Like Python `nan` it is truthy, equal to nothing (itself included), prints as
`nan` and makes `int()` raise. -/
inductive Json where
  | null : Json
  | nan : Json
  | bool (b : Bool) : Json
  | int (n : Int) : Json
  | str (s : String) : Json
  | arr (xs : List Json) : Json
  | obj (kvs : List (String × Json)) : Json

/-- Python identity test `v is None`. -/
def jsonIsNull : Json → Bool
  | .null => true
  | _ => false

/-- A row dict, as produced from the `fields` map of a record. -/
abbrev Row := List (String × Json)

/-- First-match lookup in a dict (Python `d[k]` / `k in d`). -/
def pyLookup (row : Row) (k : String) : Option Json :=
  (row.find? (fun kv => kv.1 == k)).map (fun kv => kv.2)

/-- Python `d.get(k, default)`. -/
def pyGetD (row : Row) (k : String) (default : Json) : Json :=
  (pyLookup row k).getD default

/-- Python dict assignment `d[k] = v`: replace the first binding of `k`
in place, else append a new binding. -/
def pySet : Row → String → Json → Row
  | [], k, v => [(k, v)]
  | (k', v') :: rest, k, v =>
    if k' == k then (k, v) :: rest else (k', v') :: pySet rest k v

/-- Python truthiness (`bool(x)`) for the modelled values. -/
def pyTruthy : Json → Bool
  | .null => false
  | .nan => true
  | .bool b => b
  | .int n => n != 0
  | .str s => s.length != 0
  | .arr xs => xs.length != 0
  | .obj kvs => kvs.length != 0

/-- Python `==` between cell values, as used by pandas element-wise
comparison.  `None`/`NaN` cells compare unequal to everything (pandas
semantics); `bool` and `int` compare numerically as in Python. -/
def pyEq : Json → Json → Bool
  | .str a, .str b => a == b
  | .int a, .int b => a == b
  | .bool a, .bool b => a == b
  | .bool a, .int b => (if a then (1 : Int) else 0) == b
  | .int a, .bool b => a == (if b then (1 : Int) else 0)
  | _, _ => false

/-- Python `repr` of a value.  The repr of containers is abstracted (no claim
evaluates it); scalar reprs are exact. -/
def pyRepr : Json → String
  | .null => "None"
  | .nan => "nan"
  | .bool b => if b then "True" else "False"
  | .int n => toString n
  | .str s => "\x27" ++ s ++ "\x27"
  | .arr _ => "[...]"
  | .obj _ => "\x7b...\x7d"

/-- Python `str` of a value (used by `str(...)` and f-string interpolation). -/
def pyStr : Json → String
  | .str s => s
  | v => pyRepr v

/-- Truthiness of an optional configuration string (`if not self.doc_id`,
`if not API_TOKEN`): unset or empty is falsy. -/
def pyTruthyOptStr : Option String → Bool
  | none => false
  | some s => s.length != 0

/-- Python whitespace stripped by `int(str)`. -/
def isPySpace (c : Char) : Bool :=
  c == ' ' || c == '\t' || c == '\n' || c == '\r' || c == '\x0b' || c == '\x0c'

/-- Digits of a Python integer literal: one or more ASCII digits with single
underscores allowed between digits.  Accumulates the value. -/
def pyDigitsCore : List Char → Nat → Option Nat
  | [], acc => some acc
  | c :: cs, acc =>
    if c.isDigit then pyDigitsCore cs (acc * 10 + (c.toNat - 48))
    else if c == '_' then
      match cs with
      | d :: _ => if d.isDigit then pyDigitsCore cs acc else none
      | [] => none
    else none

/-- Unsigned digit run starting the list (must start with a digit). -/
def pyDigits : List Char → Option Nat
  | [] => none
  | c :: cs => if c.isDigit then pyDigitsCore (c :: cs) 0 else none

/-- Python `int(s)` on a string: strip whitespace, optional sign, digits with
single underscores; `none` models the raised `ValueError`.  (Non-ASCII digits
are abstracted away.) -/
def pyIntOfString (s : String) : Option Int :=
  let cs := ((s.toList.dropWhile isPySpace).reverse.dropWhile isPySpace).reverse
  match cs with
  | '+' :: rest => (pyDigits rest).map (fun n => (n : Int))
  | '-' :: rest => (pyDigits rest).map (fun n => -(n : Int))
  | rest => (pyDigits rest).map (fun n => (n : Int))

/-- Python `int(v)` on a modelled value; `none` models the raised
`ValueError`/`TypeError`. -/
def pyInt : Json → Option Int
  | .int n => some n
  | .bool b => some (if b then 1 else 0)
  | .str s => pyIntOfString s
  | _ => none

/-! Section: remote table client (`grist_connector.py`, class `GristClient`) -/

/-- Column-name constants of `grist_connector.py`. -/
def COL_NOM : String := "A_nom"

def COL_EMAIL : String := "usager_email"

def COL_TITRE_PROJET : String := "A_titre_du_projet"

def COL_NUMERO_DOSSIER : String := "number"

def COL_MONTANT_DRAC : String := "montant_drac"

def COL_MONTANT_DRAAF : String := "montant_draaf"

/-- The subset of a remote record object that `get_table_data` reads:
whether an `id` key is present and its value, and whether a `fields`
key is present and its object value. -/
structure RawRecord where
  id : Option Json
  fields : Option Row

/-- Parsed body of a `/records` response: either an object carrying a
`records` list (of record objects), or anything else. -/
inductive RecordsBody where
  | withRecords (records : List RawRecord)
  | other (data : Json)

/-- Outcome of one `requests.get` call for a table fetch: a transport
exception, or a response with status code, raw text and parsed body. -/
inductive FetchOutcome where
  | exn (msg : String)
  | resp (status : Nat) (text : String) (body : RecordsBody)

/-- The row-extraction loop of `get_table_data`: for each record with a
`fields` entry, copy the field map and set the id key to the record id
(Python `None` when absent); records without `fields` are skipped. -/
def extractRows : List RawRecord → List Row
  | [] => []
  | r :: rest =>
    match r.fields with
    | some fs => pySet fs "id" (r.id.getD Json.null) :: extractRows rest
    | none => extractRows rest

/-- Model of `GristClient.get_table_data`: raises when the document id is unset, the
HTTP status is not 200, or the body lacks a `records` key; otherwise returns
the extracted rows.  The resulting pandas DataFrame is modelled as the list of
row dicts (see the module header). -/
def get_table_data (docId : Option String) (out : FetchOutcome) : Except String (List Row) :=
  if !pyTruthyOptStr docId then .error "L\x27ID du document est requis"
  else
    match out with
    | .exn m => .error m
    | .resp status text body =>
      if status != 200 then .error ("Erreur " ++ toString status ++ ": " ++ text)
      else
        match body with
        | .withRecords recs => .ok (extractRows recs)
        | .other data => .error ("Format de données inattendu: " ++ pyStr data)

/-- Outcome of the `requests.get` call in `list_tables`. -/
inductive HttpOutcome where
  | exn (msg : String)
  | resp (status : Nat) (text : String) (data : Json)

/-- Python membership test `k in d` on an object body. -/
def objHasKey (kvs : List (String × Json)) (k : String) : Bool :=
  (kvs.find? (fun kv => kv.1 == k)).isSome

/-- Model of `GristClient.list_tables`: raises when the document id is unset, on a
non-200 status, and on a body that is neither an object with a `tables` key
nor a bare list. -/
def list_tables (docId : Option String) (out : HttpOutcome) : Except String Json :=
  if !pyTruthyOptStr docId then .error "L\x27ID du document est requis"
  else
    match out with
    | .exn m => .error m
    | .resp status text data =>
      if status != 200 then .error ("Erreur " ++ toString status ++ ": " ++ text)
      else
        match data with
        | .obj kvs =>
          if objHasKey kvs "tables" then .ok (pyGetD kvs "tables" Json.null)
          else .error ("Format de données inattendu: " ++ pyStr (Json.obj kvs))
        | .arr xs => .ok (.arr xs)
        | other => .error ("Format de données inattendu: " ++ pyStr other)

/-! Section: record resolution (`grist_connector.py`, module functions) -/

/-- Python success/failure tuple `(True, value)` / `(False, message)`. -/
inductive PyResult (α : Type) where
  | ok (val : α) : PyResult α
  | fail (msg : String) : PyResult α

/-- Whether a `PyResult` is a success. -/
def PyResult.isOk {α : Type} : PyResult α → Bool
  | .ok _ => true
  | .fail _ => false

/-- The column index of a DataFrame built from a list of row dicts: the union
of the row keys in first-appearance order (pandas semantics). -/
def dedupKeysAux : List String → List String → List String
  | [], _ => []
  | x :: xs, seen =>
    if seen.contains x then dedupKeysAux xs seen else x :: dedupKeysAux xs (x :: seen)

/-- Computes `df.columns` for the modelled DataFrame. -/
def dfColumns (df : List Row) : List String :=
  dedupKeysAux ((df.map (fun r => r.map Prod.fst)).flatten) []

/-- One cell of the element-wise comparison `df[col] == v`: a row without the
column holds `NaN` and never matches. -/
def rowCellEq (row : Row) (col : String) (v : Json) : Bool :=
  match pyLookup row col with
  | some cell => pyEq cell v
  | none => false

/-- The result dict `{"id": row.get("id"), "fields": {k: v | k != "id"}}`
built by both search functions from the selected DataFrame row. -/
structure FoundRow where
  id : Json
  fields : Row

/-- Models `iloc[i].to_dict()` on the selected row: the resulting dict has
every column of the DataFrame as a key, in column order, bound to the cell of
the row, which is `NaN` when the row lacks the column (pandas padding).
The numeric dtype widening pandas applies to partially missing integer
columns is abstracted: present cells keep their JSON values. -/
def padRow (cols : List String) (row : Row) : Row :=
  cols.map (fun c => (c, (pyLookup row c).getD Json.nan))

/-- Formats a selected row as the search functions do. -/
def formatFoundRow (row : Row) : FoundRow :=
  { id := pyGetD row "id" Json.null
    fields := row.filter (fun kv => kv.1 != "id") }

/-- Model of `rechercher_dossier_par_email`: fetch the cases table, require the email
column, filter by exact equality with the queried email, take the first match.
Any exception raised inside (including fetch failures) is caught and returned
as a failure message. -/
def rechercher_dossier_par_email (email : String) (docId : Option String)
    (out : FetchOutcome) : PyResult FoundRow :=
  match get_table_data docId out with
  | .error e => .fail ("Exception: " ++ e)
  | .ok df =>
    if !(dfColumns df).contains COL_EMAIL then
      .fail ("La colonne " ++ COL_EMAIL ++ " n\x27existe pas dans la table des dossiers")
    else
      match df.filter (fun row => rowCellEq row COL_EMAIL (.str email)) with
      | [] => .fail "Aucun dossier trouvé avec cet email."
      | row :: _ => .ok (formatFoundRow (padRow (dfColumns df) row))

/-- The static list of plausible foreign-key column names probed first. -/
def dossier_id_columns : List String :=
  ["dossier_id", "projet_id", "id_dossier", "parentId"]

/-- The first probe loop: the first name of `dossier_id_columns` that exists
as a column of the annotations DataFrame. -/
def firstCandidateColumn : List String → List String → Option String
  | [], _ => none
  | c :: cs, cols => if cols.contains c then some c else firstCandidateColumn cs cols

/-- The fallback scan: the first column in which the cell of any row equals
the case identifier. -/
def firstMatchingColumn : List String → List Row → Json → Option String
  | [], _, _ => none
  | c :: cs, df, did =>
    if df.any (fun row => rowCellEq row c did) then some c
    else firstMatchingColumn cs df did

/-- Foreign-key column discovery of `rechercher_annotations_par_id_dossier`
(lines 308–333): probe the static candidate list, then — when the table is
nonempty and the identifier is not `None` — scan every column for a matching
value.  The scan result is re-checked with Python truthiness
(`if not found_column:`, line 332): a column named the empty string is falsy
and is discarded, so the lookup fails. -/
def findFkColumn (df : List Row) (dossier_id : Json) : Option String :=
  match firstCandidateColumn dossier_id_columns (dfColumns df) with
  | some c => some c
  | none =>
    match (if df.length > 0 && !jsonIsNull dossier_id then
            firstMatchingColumn (dfColumns df) df dossier_id
          else none) with
    | some c => if c.length != 0 then some c else none
    | none => none

/-- Model of `rechercher_annotations_par_id_dossier`: fetch the annotations table (an
empty table fails), discover the foreign-key column, filter by the case
identifier, take the first match.  Any exception raised inside (including
fetch failures) is caught and returned as a failure message. -/
def rechercher_annotations_par_id_dossier (dossier_id : Json) (docId : Option String)
    (out : FetchOutcome) : PyResult FoundRow :=
  match get_table_data docId out with
  | .error e => .fail ("Exception: " ++ e)
  | .ok df =>
    if df.isEmpty then .fail "Aucune donnée dans la table des annotations"
    else
      match findFkColumn df dossier_id with
      | none => .fail "Impossible de déterminer la colonne de référence au dossier"
      | some col =>
        match df.filter (fun row => rowCellEq row col dossier_id) with
        | [] => .fail "Aucune annotation trouvée pour ce dossier"
        | row :: _ => .ok (formatFoundRow (padRow (dfColumns df) row))

/-- The combined data dict assembled by `valider_email_et_recuperer_donnees`:
six fixed keys.  `Email` is the input string; the amounts are the stringified
annotation amounts (or the `"0"` defaults). -/
structure CombinedData where
  nom : Json
  email : String
  titre : Json
  numero : Json
  montant_drac : String
  montant_draaf : String

/-- Model of `valider_email_et_recuperer_donnees`: locate the case row (failures
propagate), then the annotation row (failures default both amounts to `"0"`),
then assemble the combined record. -/
def valider_email_et_recuperer_donnees (email : String) (docId : Option String)
    (casesOut annOut : FetchOutcome) : PyResult CombinedData :=
  match rechercher_dossier_par_email email docId casesOut with
  | .fail m => .fail m
  | .ok rd =>
    let montants :=
      match rechercher_annotations_par_id_dossier rd.id docId annOut with
      | .ok ra =>
        (pyStr (pyGetD ra.fields COL_MONTANT_DRAC (.str "0")),
         pyStr (pyGetD ra.fields COL_MONTANT_DRAAF (.str "0")))
      | .fail _ => ("0", "0")
    let dossier_fields := rd.fields
    let numero := pyGetD dossier_fields "N_dossier"
      (pyGetD dossier_fields COL_NUMERO_DOSSIER (.str ""))
    .ok
      { nom := pyGetD dossier_fields COL_NOM (.str "")
        email := email
        titre := pyGetD dossier_fields COL_TITRE_PROJET (.str "")
        numero := numero
        montant_drac := montants.1
        montant_draaf := montants.2 }

/-- Amount projection of a resolution result (for claim statements). -/
def resultMontantDrac : PyResult CombinedData → Option String
  | .ok r => some r.montant_drac
  | .fail _ => none

/-- Amount projection of a resolution result (for claim statements). -/
def resultMontantDraaf : PyResult CombinedData → Option String
  | .ok r => some r.montant_draaf
  | .fail _ => none

/-- Record projection of a resolution result (for claim statements). -/
def resultRecord : PyResult CombinedData → Option CombinedData
  | .ok r => some r
  | .fail _ => none

/-! Section: validation (`app.py`) -/

/-- Character class of the local part of the email pattern
`[a-zA-Z0-9._%+-]`. -/
def isEmailLocalChar (c : Char) : Bool :=
  c.isAlphanum || c == '.' || c == '_' || c == '%' || c == '+' || c == '-'

/-- Character class of the domain part of the email pattern
`[a-zA-Z0-9.-]`. -/
def isEmailDomainChar (c : Char) : Bool :=
  c.isAlphanum || c == '.' || c == '-'

/-- Split a character list on a separator, like `str.split` on a single
character: `[]` yields one empty group, a trailing separator yields a final
empty group. -/
def splitOnChar (sep : Char) : List Char → List (List Char)
  | [] => [[]]
  | c :: cs =>
    if c == sep then [] :: splitOnChar sep cs
    else
      match splitOnChar sep cs with
      | g :: gs => (c :: g) :: gs
      | [] => [[c]]

/-- Re-join dot-separated groups (used to test non-emptiness of the domain
prefix before the last dot). -/
def joinDots : List (List Char) → List Char
  | [] => []
  | [g] => g
  | g :: gs => g ++ '.' :: joinDots gs

/-- The domain side of the pattern, `[a-zA-Z0-9.-]+\.[a-zA-Z]\x7b2,\x7d`:
split at the last dot; the prefix must be nonempty domain characters and the
final label at least two letters.  (The final label is the part after the last
dot since it may not contain a dot itself.) -/
def emailDomainOk (dom : List Char) : Bool :=
  match (splitOnChar '.' dom).reverse with
  | tld :: rest =>
    !rest.isEmpty &&
    tld.length ≥ 2 && tld.all Char.isAlpha &&
    !(joinDots rest.reverse).isEmpty &&
    rest.all (fun p => p.all isEmailDomainChar)
  | [] => false

/-- Model of `is_valid_email` from `app.py`: whether the string matches
`^[a-zA-Z0-9._%+-]+@[a-zA-Z0-9.-]+\.[a-zA-Z]\x7b2,\x7d$`.  Matching is exact:
the string must contain exactly one `@` separating a nonempty local part from
a matching domain.  (The `$`-before-final-newline quirk of `re` is abstracted
away.) -/
def is_valid_email (s : String) : Bool :=
  match splitOnChar '@' s.toList with
  | [lp, dom] => !lp.isEmpty && lp.all isEmailLocalChar && emailDomainOk dom
  | _ => false

/-- The email check of `verifier_champs_obligatoires`: a falsy email is
missing, a truthy string is checked against the pattern; `re.match` on a
non-string value raises `TypeError` (`none`). -/
def emailCheck (v : Json) : Option (List String) :=
  if !pyTruthy v then some ["Email"]
  else
    match v with
    | .str s => if !is_valid_email s then some ["Email (format invalide)"] else some []
    | _ => none

/-- One amount check of `verifier_champs_obligatoires`: `int(value)` raises on
unparsable values (`none`); a parsed value `<= 0` yields the label. -/
def montantCheck (label : String) (v : Json) : Option (List String) :=
  match pyInt v with
  | some n => if n ≤ 0 then some [label] else some []
  | none => none

/-- Model of `verifier_champs_obligatoires` from `app.py`: collects the labels of
missing/invalid fields in program order (email, project title, case number,
DRAC amount, DRAAF amount).  `none` models an exception escaping the
function (an `int(...)` or `re.match` failure). -/
def verifier_champs_obligatoires (form_data : Row) : Option (List String) := do
  let e ← emailCheck (pyGetD form_data "Email" (.str ""))
  let t := if !pyTruthy (pyGetD form_data "Titre_du_projet" (.str "")) then
    ["Titre du projet"] else []
  let n := if !pyTruthy (pyGetD form_data "Numero_dossier" (.str "")) then
    ["Numéro de dossier"] else []
  let dr ← montantCheck "Montant DRAC" (pyGetD form_data "Montant_DRAC" (.int 0))
  let da ← montantCheck "Montant DRAAF" (pyGetD form_data "Montant_DRAAF" (.int 0))
  return e ++ t ++ n ++ dr ++ da

/-- The email requirement as the specification words it: the email value must
be a syntactically valid email string; a missing/empty email and an invalid
one get their respective labels. -/
def specEmailLabels (v : Json) : List String :=
  if !pyTruthy v then ["Email"]
  else
    match v with
    | .str s => if is_valid_email s then [] else ["Email (format invalide)"]
    | _ => ["Email (format invalide)"]

/-- The amount requirement as the specification words it: the leniently
parsed integer must be `> 0`. -/
def specMontantLabels (label : String) (v : Json) : List String :=
  if (pyInt v).getD 0 ≤ 0 then [label] else []

/-- The required-field rules as the specification words them (claim C6): a
label per missing/invalid field, in the fixed order email, project title,
case number, DRAC amount, DRAAF amount; an email must be a syntactically
valid string, titles and numbers non-empty, amounts parsed integers `> 0`;
the name field is never consulted. -/
def specMissingLabels (form_data : Row) : List String :=
  specEmailLabels (pyGetD form_data "Email" (.str "")) ++
  (if !pyTruthy (pyGetD form_data "Titre_du_projet" (.str "")) then
    ["Titre du projet"] else []) ++
  (if !pyTruthy (pyGetD form_data "Numero_dossier" (.str "")) then
    ["Numéro de dossier"] else []) ++
  specMontantLabels "Montant DRAC" (pyGetD form_data "Montant_DRAC" (.int 0)) ++
  specMontantLabels "Montant DRAAF" (pyGetD form_data "Montant_DRAAF" (.int 0))

/-! Section: prefill link generation (`ds_prefiller.py`) -/

/-- The static field mapping `FIELD_MAPPING`. -/
def FIELD_MAPPING : List (String × String) :=
  [("Titre_du_projet", "Q2hhbXAtNjIyMzQw"),
   ("Numero_dossier", "Q2hhbXAtNjA3OTQ3"),
   ("Montant_DRAC", "Q2hhbXAtNDA3NDExMQ"),
   ("Montant_DRAAF", "Q2hhbXAtNDA3NDExMg"),
   ("Nom", "Q2hhbXAtNjA3OTcy"),
   ("Email", "Q2hhbXAtNjA3OTc1")]

/-- Model of `map_data` from `ds_prefiller.py`: keep the keys present in
`FIELD_MAPPING`, rename them to `champ_{id}` and stringify the values. -/
def map_data : Row → List (String × String)
  | [] => []
  | (k, v) :: rest =>
    match (FIELD_MAPPING.find? (fun kv => kv.1 == k)).map (fun kv => kv.2) with
    | some fid => ("champ_" ++ fid, pyStr v) :: map_data rest
    | none => map_data rest

/-- Outcome of the `requests.post` call in `generate_prefilled_url`: a
transport (or JSON-parsing) exception, or a response with status code, raw
text and parsed JSON object body.  (The code and the spec both presuppose the
service answers with a JSON object.) -/
inductive DsOutcome where
  | exn (msg : String)
  | resp (status : Nat) (text : String) (body : List (String × Json))

/-- Model of `generate_prefilled_url` from `ds_prefiller.py`: a falsy API token fails
immediately (the request is never sent, so the result ignores the outcome);
status 201 succeeds with the `dossier_url` value of the body (empty string when
absent); any other status fails with the raw text; an exception fails with
its text. -/
def generate_prefilled_url (token : Option String) (data_dict : Row)
    (out : DsOutcome) : PyResult Json :=
  if !pyTruthyOptStr token then
    .fail "Token API non trouvé. Vérifiez votre fichier .env"
  else
    let _mapped := map_data data_dict
    match out with
    | .exn m => .fail ("Exception: " ++ m)
    | .resp status text body =>
      if status == 201 then .ok (pyGetD body "dossier_url" (.str ""))
      else .fail ("Erreur API DS: " ++ text)

/-- Success projection of an `Except` result. -/
def exceptIsOk {α : Type} : Except String α → Bool
  | .ok _ => true
  | .error _ => false

/-- A cases-table response whose single row matches the email `a@b.com`
(the worked example row of the spec). -/
def exCasesOut : FetchOutcome :=
  .resp 200 ""
    (.withRecords
      [⟨some (.int 7), some [("usager_email", .str "a@b.com"),
                             ("A_titre_du_projet", .str "Proj X"),
                             ("N_dossier", .str "D1")]⟩])

/-- A two-record cases table whose matching row (`a@b.com`) lacks
`N_dossier` while the other record carries it, so pandas pads the selected
row with `N_dossier = NaN`. -/
def exPaddedCasesOut : FetchOutcome :=
  .resp 200 ""
    (.withRecords
      [⟨some (.int 1), some [("usager_email", .str "a@b.com")]⟩,
       ⟨some (.int 2), some [("usager_email", .str "z@x.io"),
                             ("N_dossier", .str "D9")]⟩])

/-! Section: helper lemmas -/

/-- Lemma: `find?` is the head of the filtered list. -/
theorem find?_eq_filter_head? {α : Type} (p : α → Bool) (l : List α) :
    l.find? p = (l.filter p).head? := by
  induction l with
  | nil => rfl
  | cons a l ih =>
    cases h : p a with
    | true => rw [List.find?_cons_of_pos _ h, List.filter_cons_of_pos h]; rfl
    | false =>
      have h' : ¬ p a = true := by simp [h]
      rw [List.find?_cons_of_neg _ h', List.filter_cons_of_neg h', ih]

/-- The candidate probe loop is `find?` of membership over the candidates. -/
theorem firstCandidateColumn_eq_find? (cs cols : List String) :
    firstCandidateColumn cs cols = cs.find? (fun c => cols.contains c) := by
  induction cs with
  | nil => rfl
  | cons c cs ih =>
    unfold firstCandidateColumn List.find?
    cases h : cols.contains c with
    | true => simp [h]
    | false => simp [h, ih]

/-- The fallback scan loop is `find?` of the any-row-matches predicate. -/
theorem firstMatchingColumn_eq_find? (cs : List String) (df : List Row) (did : Json) :
    firstMatchingColumn cs df did =
      cs.find? (fun c => df.any (fun row => rowCellEq row c did)) := by
  induction cs with
  | nil => rfl
  | cons c cs ih =>
    unfold firstMatchingColumn List.find?
    cases h : df.any (fun row => rowCellEq row c did) with
    | true => simp [h]
    | false => simp [h, ih]

/-- The extraction loop written as a `filterMap`. -/
theorem extractRows_eq_filterMap :
    ∀ recs : List RawRecord,
      extractRows recs =
        recs.filterMap (fun r => r.fields.map (fun fs => pySet fs "id" (r.id.getD Json.null)))
  | [] => rfl
  | r :: rest => by
    cases h : r.fields with
    | none => simp [extractRows, List.filterMap_cons, h, extractRows_eq_filterMap rest]
    | some fs => simp [extractRows, List.filterMap_cons, h, extractRows_eq_filterMap rest]

/-! Section: claim theorems -/

/-- Claim C10: `get_table_data` silently drops every remote record that lacks a
`fields` entry: on a 200 response carrying a `records` list, the returned row
sequence is, in server order, exactly the records that have a `fields` map,
each row being a copy of that map with the record id attached (`None`
when the record has no id); records without `fields` produce no row and no
error. -/
theorem get_table_data_drops_fieldless_records (docId : Option String) (text : String)
    (recs : List RawRecord) (h : pyTruthyOptStr docId = true) :
    get_table_data docId (.resp 200 text (.withRecords recs)) =
      .ok (recs.filterMap (fun r => r.fields.map (fun fs => pySet fs "id" (r.id.getD Json.null)))) := by
  simp [get_table_data, h, extractRows_eq_filterMap]

/-- Witness for the C10 theorem at a concrete response containing a record
with fields and id, a record with neither, and a record with fields only. -/
theorem get_table_data_drops_fieldless_records_witness :
    get_table_data (some "doc")
        (.resp 200 ""
          (.withRecords
            [⟨some (.int 1), some [("a", .int 2)]⟩,
             ⟨none, none⟩,
             ⟨none, some [("b", .int 3)]⟩])) =
      .ok [[("a", .int 2), ("id", .int 1)], [("b", .int 3), ("id", .null)]] :=
  get_table_data_drops_fieldless_records (some "doc") ""
    [⟨some (.int 1), some [("a", .int 2)]⟩, ⟨none, none⟩, ⟨none, some [("b", .int 3)]⟩] rfl

/-- Claim C9: `generate_prefilled_url` fails immediately with the
missing-credential message whenever the API token is unset or empty, with a
result independent of any network outcome (no call is made); with a token it
succeeds exactly on HTTP 201, returning the `dossier_url` value of the body (the
empty string when absent); any other status fails carrying the raw response
text, and a transport exception fails carrying the exception text. -/
theorem generate_prefilled_url_spec (token : Option String) (d : Row) :
    (pyTruthyOptStr token = false →
      ∀ out : DsOutcome,
        generate_prefilled_url token d out =
          .fail "Token API non trouvé. Vérifiez votre fichier .env") ∧
    (pyTruthyOptStr token = true →
      ∀ (text : String) (body : List (String × Json)),
        generate_prefilled_url token d (.resp 201 text body) =
          .ok (pyGetD body "dossier_url" (.str ""))) ∧
    (pyTruthyOptStr token = true →
      ∀ (status : Nat) (text : String) (body : List (String × Json)), status ≠ 201 →
        generate_prefilled_url token d (.resp status text body) =
          .fail ("Erreur API DS: " ++ text)) ∧
    (pyTruthyOptStr token = true →
      ∀ m : String,
        generate_prefilled_url token d (.exn m) = .fail ("Exception: " ++ m)) := by
  refine ⟨fun h out => ?_, fun h text body => ?_, fun h status text body hs => ?_, fun h m => ?_⟩
  · simp [generate_prefilled_url, h]
  · simp [generate_prefilled_url, h]
  · simp [generate_prefilled_url, h, hs]
  · simp [generate_prefilled_url, h]

/-- Witness for the C9 theorem: each branch applied at a concrete input. -/
theorem generate_prefilled_url_spec_witness :
    generate_prefilled_url none [] (.exn "x") =
      .fail "Token API non trouvé. Vérifiez votre fichier .env" ∧
    generate_prefilled_url (some "tok") [] (.resp 201 "" [("dossier_url", .str "https://x/y")]) =
      .ok (.str "https://x/y") ∧
    generate_prefilled_url (some "tok") [] (.resp 422 "bad" []) =
      .fail "Erreur API DS: bad" ∧
    generate_prefilled_url (some "tok") [] (.exn "boom") =
      .fail "Exception: boom" :=
  ⟨(generate_prefilled_url_spec none []).1 rfl (.exn "x"),
   (generate_prefilled_url_spec (some "tok") []).2.1 rfl "" [("dossier_url", .str "https://x/y")],
   (generate_prefilled_url_spec (some "tok") []).2.2.1 rfl 422 "bad" [] (by decide),
   (generate_prefilled_url_spec (some "tok") []).2.2.2 rfl "boom"⟩

/-- Claim C8, counterexample: the claimed normalizations do not exist in
`list_tables`: an object with only a `docs` key does not yield the value of
that key, and an object with neither key raises instead of being treated as a
single-item list. -/
theorem list_tables_no_docs_or_singleton_fallback :
    ¬(list_tables (some "doc") (.resp 200 "" (.obj [("docs", .arr [])])) = .ok (.arr [])) ∧
    exceptIsOk (list_tables (some "doc") (.resp 200 "" (.obj []))) = false := by
  exact ⟨fun h => Except.noConfusion h, rfl⟩

/-- Claim C8, amended: `list_tables` fails on a non-200 status; on a 200
response it returns a bare list as-is and the value of a `tables` key of an
object body; any other body — an object without a `tables` key (even one
with a `docs` key) or a non-list non-object value — raises a format error
(the `docs`-key and single-item-list normalizations live in `list_documents`,
not `list_tables`). -/
theorem list_tables_normalization (docId : Option String) (h : pyTruthyOptStr docId = true) :
    (∀ (status : Nat) (text : String) (data : Json), status ≠ 200 →
      list_tables docId (.resp status text data) =
        .error ("Erreur " ++ toString status ++ ": " ++ text)) ∧
    (∀ (text : String) (xs : List Json),
      list_tables docId (.resp 200 text (.arr xs)) = .ok (.arr xs)) ∧
    (∀ (text : String) (kvs : List (String × Json)) (v : Json),
      pyLookup kvs "tables" = some v →
      list_tables docId (.resp 200 text (.obj kvs)) = .ok v) ∧
    (∀ (text : String) (kvs : List (String × Json)),
      pyLookup kvs "tables" = none →
      exceptIsOk (list_tables docId (.resp 200 text (.obj kvs))) = false) ∧
    (∀ (text : String) (data : Json),
      (∀ xs, data ≠ .arr xs) → (∀ kvs, data ≠ .obj kvs) →
      exceptIsOk (list_tables docId (.resp 200 text data)) = false) := by
  refine ⟨fun status text data hs => ?_, fun text xs => ?_, fun text kvs v hv => ?_,
    fun text kvs hv => ?_, fun text data ha ho => ?_⟩
  · simp [list_tables, h, hs]
  · simp [list_tables, h]
  · unfold pyLookup at hv
    rcases Option.map_eq_some'.mp hv with ⟨kv, hfind, hsnd⟩
    have hk : objHasKey kvs "tables" = true := by
      simp [objHasKey, hfind]
    simp [list_tables, h, hk, pyGetD, pyLookup, hfind, hsnd]
  · unfold pyLookup at hv
    have hfind := Option.map_eq_none'.mp hv
    have hk : objHasKey kvs "tables" = false := by
      simp [objHasKey, hfind]
    simp [list_tables, h, hk, exceptIsOk]
  · cases data with
    | arr xs => exact absurd rfl (ha xs)
    | obj kvs => exact absurd rfl (ho kvs)
    | null => simp [list_tables, h, exceptIsOk]
    | nan => simp [list_tables, h, exceptIsOk]
    | bool b => simp [list_tables, h, exceptIsOk]
    | int n => simp [list_tables, h, exceptIsOk]
    | str s => simp [list_tables, h, exceptIsOk]

/-- Witness for the C8 amended theorem at concrete inputs. -/
theorem list_tables_normalization_witness :
    list_tables (some "doc") (.resp 500 "oops" (.arr [])) = .error "Erreur 500: oops" ∧
    list_tables (some "doc") (.resp 200 "" (.arr [.int 1])) = .ok (.arr [.int 1]) ∧
    list_tables (some "doc") (.resp 200 "" (.obj [("tables", .arr [.int 2])])) =
      .ok (.arr [.int 2]) ∧
    exceptIsOk (list_tables (some "doc") (.resp 200 "" (.obj [("docs", .arr [])]))) = false ∧
    exceptIsOk (list_tables (some "doc") (.resp 200 "" (.str "x"))) = false :=
  ⟨(list_tables_normalization (some "doc") rfl).1 500 "oops" (.arr []) (by decide),
   (list_tables_normalization (some "doc") rfl).2.1 "" [.int 1],
   (list_tables_normalization (some "doc") rfl).2.2.1 "" [("tables", .arr [.int 2])]
     (.arr [.int 2]) rfl,
   (list_tables_normalization (some "doc") rfl).2.2.2.1 "" [("docs", .arr [])] rfl,
   (list_tables_normalization (some "doc") rfl).2.2.2.2 "" (.str "x")
     (fun _ h => Json.noConfusion h) (fun _ h => Json.noConfusion h)⟩

/-- Claim C3: once the cases table is fetched, `rechercher_dossier_par_email`
fails with the schema-mismatch message when the table lacks the email column;
with the column present it fails with the not-found message when the email
cell of no row equals the queried email under exact string equality, and
otherwise succeeds with the first matching row in server order. -/
theorem rechercher_dossier_first_match (email : String) (docId : Option String)
    (cf : FetchOutcome) (df : List Row) (h : get_table_data docId cf = .ok df) :
    (COL_EMAIL ∉ dfColumns df →
      rechercher_dossier_par_email email docId cf =
        .fail ("La colonne " ++ COL_EMAIL ++ " n\x27existe pas dans la table des dossiers")) ∧
    (COL_EMAIL ∈ dfColumns df →
      df.find? (fun row => rowCellEq row COL_EMAIL (.str email)) = none →
      rechercher_dossier_par_email email docId cf =
        .fail "Aucun dossier trouvé avec cet email.") ∧
    (∀ row : Row, COL_EMAIL ∈ dfColumns df →
      df.find? (fun row => rowCellEq row COL_EMAIL (.str email)) = some row →
      rechercher_dossier_par_email email docId cf =
        .ok (formatFoundRow (padRow (dfColumns df) row))) := by
  have hfilter := find?_eq_filter_head? (fun row => rowCellEq row COL_EMAIL (.str email)) df
  refine ⟨fun hmem => ?_, fun hmem hfind => ?_, fun row hmem hfind => ?_⟩
  · have hc : (dfColumns df).contains COL_EMAIL = false := by simpa using hmem
    simp [rechercher_dossier_par_email, h, hc, hmem]
  · have hc : (dfColumns df).contains COL_EMAIL = true := by simpa using hmem
    rw [hfilter] at hfind
    cases hf : df.filter (fun row => rowCellEq row COL_EMAIL (.str email)) with
    | nil => simp [rechercher_dossier_par_email, h, hc, hmem, hf]
    | cons r t => rw [hf] at hfind; simp at hfind
  · have hc : (dfColumns df).contains COL_EMAIL = true := by simpa using hmem
    rw [hfilter] at hfind
    cases hf : df.filter (fun row => rowCellEq row COL_EMAIL (.str email)) with
    | nil => rw [hf] at hfind; simp at hfind
    | cons r t =>
      rw [hf] at hfind
      simp at hfind
      subst hfind
      simp [rechercher_dossier_par_email, h, hc, hmem, hf]

/-- Witness for the C3 theorem: schema mismatch, not-found and first-match at
concrete tables (the matching table holds two rows with the same email; the
first one is selected). -/
theorem rechercher_dossier_first_match_witness :
    rechercher_dossier_par_email "a@b.com" (some "doc")
        (.resp 200 "" (.withRecords [⟨some (.int 1), some [("x", .int 1)]⟩])) =
      .fail ("La colonne " ++ COL_EMAIL ++ " n\x27existe pas dans la table des dossiers") ∧
    rechercher_dossier_par_email "z@b.com" (some "doc")
        (.resp 200 "" (.withRecords [⟨some (.int 1), some [("usager_email", .str "a@b.com")]⟩])) =
      .fail "Aucun dossier trouvé avec cet email." ∧
    rechercher_dossier_par_email "a@b.com" (some "doc")
        (.resp 200 ""
          (.withRecords
            [⟨some (.int 1), some [("usager_email", .str "a@b.com"), ("N_dossier", .str "D1")]⟩,
             ⟨some (.int 2), some [("usager_email", .str "a@b.com"), ("N_dossier", .str "D2")]⟩])) =
      .ok (formatFoundRow
        [("usager_email", .str "a@b.com"), ("N_dossier", .str "D1"), ("id", .int 1)]) :=
  ⟨(rechercher_dossier_first_match "a@b.com" (some "doc")
      (.resp 200 "" (.withRecords [⟨some (.int 1), some [("x", .int 1)]⟩]))
      [[("x", .int 1), ("id", .int 1)]] rfl).1 (by decide),
   (rechercher_dossier_first_match "z@b.com" (some "doc")
      (.resp 200 "" (.withRecords [⟨some (.int 1), some [("usager_email", .str "a@b.com")]⟩]))
      [[("usager_email", .str "a@b.com"), ("id", .int 1)]] rfl).2.1 (by decide) rfl,
   (rechercher_dossier_first_match "a@b.com" (some "doc")
      (.resp 200 ""
        (.withRecords
          [⟨some (.int 1), some [("usager_email", .str "a@b.com"), ("N_dossier", .str "D1")]⟩,
           ⟨some (.int 2), some [("usager_email", .str "a@b.com"), ("N_dossier", .str "D2")]⟩]))
      [[("usager_email", .str "a@b.com"), ("N_dossier", .str "D1"), ("id", .int 1)],
       [("usager_email", .str "a@b.com"), ("N_dossier", .str "D2"), ("id", .int 2)]] rfl).2.2
     [("usager_email", .str "a@b.com"), ("N_dossier", .str "D1"), ("id", .int 1)]
     (by decide) rfl⟩

/-- Lemma: a non-empty string has a length-is-not-zero boolean test. -/
theorem length_bne_zero_of_ne_empty (c : String) (hc : c ≠ "") :
    (c.length != 0) = true := by
  have h0 : c.length ≠ 0 := by
    intro h
    apply hc
    cases c with
    | mk data =>
      cases data with
      | nil => rfl
      | cons a l => simp [String.length] at h
  simp [bne_iff_ne, h0]

/-- Claim C4, counterexample: the first column in which a row matches can be
named the empty string; the program then discards it — `found_column` is
re-checked with Python truthiness (`if not found_column:`, line 332) and the
empty string is falsy — and the lookup fails instead of using that column,
so discovery does not always take the first matching column of the scan. -/
theorem scan_first_match_empty_name_fails :
    (dfColumns [[("", Json.int 7), ("id", Json.int 3)]]).find?
        (fun c => [[("", Json.int 7), ("id", Json.int 3)]].any
          (fun row => rowCellEq row c (.int 7))) = some "" ∧
    findFkColumn [[("", Json.int 7), ("id", Json.int 3)]] (.int 7) = none ∧
    rechercher_annotations_par_id_dossier (.int 7) (some "doc")
        (.resp 200 "" (.withRecords [⟨some (.int 3), some [("", .int 7)]⟩])) =
      .fail "Impossible de déterminer la colonne de référence au dossier" :=
  ⟨rfl, rfl, rfl⟩

/-- Claim C4, amended: the annotation foreign-key column is discovered by
probing the static names `dossier_id`, `projet_id`, `id_dossier`, `parentId`
in that order and taking the first that exists as a column; if none exists,
by scanning the columns in order for one in which the cell of any row equals
the case identifier and taking the first matching column provided its name is
non-empty — the scan result is re-checked with Python truthiness, so a falsy
empty-string column name is discarded; if both methods fail, or the scan hit
is discarded, the annotation lookup fails (softly, with the
undeterminable-column message). -/
theorem annotation_fk_column_discovery :
    (∀ (df : List Row) (did : Json) (c : String),
      dossier_id_columns.find? (fun c => (dfColumns df).contains c) = some c →
      findFkColumn df did = some c) ∧
    (∀ (df : List Row) (did : Json) (c : String),
      dossier_id_columns.find? (fun c => (dfColumns df).contains c) = none →
      did ≠ .null → df ≠ [] →
      (dfColumns df).find? (fun c => df.any (fun row => rowCellEq row c did)) = some c →
      c ≠ "" →
      findFkColumn df did = some c) ∧
    (∀ (df : List Row) (did : Json),
      dossier_id_columns.find? (fun c => (dfColumns df).contains c) = none →
      did ≠ .null → df ≠ [] →
      (dfColumns df).find? (fun c => df.any (fun row => rowCellEq row c did)) = some "" →
      findFkColumn df did = none) ∧
    (∀ (df : List Row) (did : Json),
      dossier_id_columns.find? (fun c => (dfColumns df).contains c) = none →
      (dfColumns df).find? (fun c => df.any (fun row => rowCellEq row c did)) = none →
      findFkColumn df did = none) ∧
    (∀ (did : Json) (docId : Option String) (out : FetchOutcome) (df : List Row),
      get_table_data docId out = .ok df → df ≠ [] → findFkColumn df did = none →
      rechercher_annotations_par_id_dossier did docId out =
        .fail "Impossible de déterminer la colonne de référence au dossier") := by
  have hjson : ∀ did : Json, did ≠ .null → jsonIsNull did = false := by
    intro did hnull
    cases did with
    | null => exact absurd rfl hnull
    | nan => rfl
    | bool b => rfl
    | int n => rfl
    | str s => rfl
    | arr xs => rfl
    | obj kvs => rfl
  refine ⟨fun df did c hfind => ?_, fun df did c hfind hnull hne hscan hc => ?_,
    fun df did hfind hnull hne hscan => ?_, fun df did hfind hscan => ?_,
    fun did docId out df h hne hfk => ?_⟩
  · unfold findFkColumn
    rw [firstCandidateColumn_eq_find?, hfind]
  · have hlen : 0 < df.length := List.length_pos.mpr hne
    unfold findFkColumn
    rw [firstCandidateColumn_eq_find?, hfind]
    simp [hlen, hjson did hnull, firstMatchingColumn_eq_find?, hscan,
      length_bne_zero_of_ne_empty c hc]
  · have hlen : 0 < df.length := List.length_pos.mpr hne
    unfold findFkColumn
    rw [firstCandidateColumn_eq_find?, hfind]
    simp [hlen, hjson did hnull, firstMatchingColumn_eq_find?, hscan]
  · unfold findFkColumn
    rw [firstCandidateColumn_eq_find?, hfind]
    simp [firstMatchingColumn_eq_find?, hscan]
  · have hempty : df.isEmpty = false := by simp [List.isEmpty_iff, hne]
    simp [rechercher_annotations_par_id_dossier, h, hempty, hfk]

/-- Witness for the C4 amended theorem: the probe finds `projet_id`; with no
candidate column the scan finds the non-empty-named matching column `x`; an
empty-named scan hit is discarded; a scan with no hit finds nothing; and an
undiscovered column makes the lookup fail softly. -/
theorem annotation_fk_column_discovery_witness :
    findFkColumn [[("projet_id", .int 7)]] (.int 9) = some "projet_id" ∧
    findFkColumn [[("x", .int 7), ("id", .int 3)]] (.int 7) = some "x" ∧
    findFkColumn [[("", .int 9), ("id", .int 3)]] (.int 9) = none ∧
    findFkColumn [[("x", .int 8), ("id", .int 3)]] (.int 7) = none ∧
    rechercher_annotations_par_id_dossier (.int 7) (some "doc")
        (.resp 200 "" (.withRecords [⟨some (.int 3), some [("x", .int 8)]⟩])) =
      .fail "Impossible de déterminer la colonne de référence au dossier" :=
  ⟨annotation_fk_column_discovery.1 [[("projet_id", .int 7)]] (.int 9) "projet_id" rfl,
   annotation_fk_column_discovery.2.1 [[("x", .int 7), ("id", .int 3)]] (.int 7) "x" rfl
     (fun hx => Json.noConfusion hx) (fun hx => List.noConfusion hx) rfl (by decide),
   annotation_fk_column_discovery.2.2.1 [[("", .int 9), ("id", .int 3)]] (.int 9) rfl
     (fun hx => Json.noConfusion hx) (fun hx => List.noConfusion hx) rfl,
   annotation_fk_column_discovery.2.2.2.1 [[("x", .int 8), ("id", .int 3)]] (.int 7) rfl rfl,
   annotation_fk_column_discovery.2.2.2.2 (.int 7) (some "doc")
     (.resp 200 "" (.withRecords [⟨some (.int 3), some [("x", .int 8)]⟩]))
     [[("x", .int 8), ("id", .int 3)]] rfl (fun hx => List.noConfusion hx) rfl⟩

/-- Claim C1: once the case row is located, resolution succeeds whatever the
annotation lookup does; when the annotation lookup fails — for any reason —
both amounts of the resolved record are `"0"`, and the failure is never
propagated. -/
theorem resolution_tolerates_annotation_failure (email : String) (docId : Option String)
    (cf af : FetchOutcome) (rd : FoundRow)
    (h : rechercher_dossier_par_email email docId cf = .ok rd) :
    (valider_email_et_recuperer_donnees email docId cf af).isOk = true ∧
    (∀ m : String,
      rechercher_annotations_par_id_dossier rd.id docId af = .fail m →
      resultMontantDrac (valider_email_et_recuperer_donnees email docId cf af) = some "0" ∧
      resultMontantDraaf (valider_email_et_recuperer_donnees email docId cf af) = some "0") := by
  constructor
  · unfold valider_email_et_recuperer_donnees
    rw [h]
    cases ha : rechercher_annotations_par_id_dossier rd.id docId af <;>
      simp [ha, PyResult.isOk]
  · intro m hm
    simp [valider_email_et_recuperer_donnees, h, hm, resultMontantDrac, resultMontantDraaf]

/-- Witness for the C1 theorem: a present case row with an empty annotations
table resolves successfully with both amounts `"0"`. -/
theorem resolution_tolerates_annotation_failure_witness :
    (valider_email_et_recuperer_donnees "a@b.com" (some "doc") exCasesOut
        (.resp 200 "" (.withRecords []))).isOk = true ∧
    resultMontantDrac (valider_email_et_recuperer_donnees "a@b.com" (some "doc") exCasesOut
        (.resp 200 "" (.withRecords []))) = some "0" ∧
    resultMontantDraaf (valider_email_et_recuperer_donnees "a@b.com" (some "doc") exCasesOut
        (.resp 200 "" (.withRecords []))) = some "0" :=
  ⟨(resolution_tolerates_annotation_failure "a@b.com" (some "doc") exCasesOut
      (.resp 200 "" (.withRecords []))
      (formatFoundRow [("usager_email", .str "a@b.com"), ("A_titre_du_projet", .str "Proj X"),
        ("N_dossier", .str "D1"), ("id", .int 7)]) rfl).1,
   (resolution_tolerates_annotation_failure "a@b.com" (some "doc") exCasesOut
      (.resp 200 "" (.withRecords []))
      (formatFoundRow [("usager_email", .str "a@b.com"), ("A_titre_du_projet", .str "Proj X"),
        ("N_dossier", .str "D1"), ("id", .int 7)]) rfl).2
     "Aucune donnée dans la table des annotations" rfl⟩

/-- Claim C2, counterexample: a remote failure while fetching the annotations
table is not surfaced: with a matching case row and a transport exception on
the annotations fetch, resolution still succeeds (with defaulted amounts),
contradicting the claim that every fetch failure yields an error. -/
theorem annotation_fetch_error_swallowed :
    get_table_data (some "doc") (FetchOutcome.exn "ConnectionError") = .error "ConnectionError" ∧
    (valider_email_et_recuperer_donnees "a@b.com" (some "doc") exCasesOut
        (.exn "ConnectionError")).isOk = true :=
  ⟨rfl, rfl⟩

/-- Claim C2, amended: a remote failure while fetching the cases table is
surfaced: resolution fails with the wrapped exception text.  A remote failure
while fetching the annotations table is caught inside the annotation lookup
and degrades to the defaulting path: resolution still succeeds and both
amounts are `"0"`. -/
theorem remote_error_surfacing (email : String) (docId : Option String)
    (cf af : FetchOutcome) (e : String) :
    (get_table_data docId cf = .error e →
      valider_email_et_recuperer_donnees email docId cf af =
        .fail ("Exception: " ++ e)) ∧
    (∀ rd : FoundRow,
      rechercher_dossier_par_email email docId cf = .ok rd →
      get_table_data docId af = .error e →
      (valider_email_et_recuperer_donnees email docId cf af).isOk = true ∧
      resultMontantDrac (valider_email_et_recuperer_donnees email docId cf af) = some "0" ∧
      resultMontantDraaf (valider_email_et_recuperer_donnees email docId cf af) = some "0") := by
  constructor
  · intro he
    have hd : rechercher_dossier_par_email email docId cf = .fail ("Exception: " ++ e) := by
      unfold rechercher_dossier_par_email
      rw [he]
    unfold valider_email_et_recuperer_donnees
    rw [hd]
  · intro rd h he
    have ha : rechercher_annotations_par_id_dossier rd.id docId af =
        .fail ("Exception: " ++ e) := by
      unfold rechercher_annotations_par_id_dossier
      rw [he]
    refine ⟨?_, ?_, ?_⟩
    · simp [valider_email_et_recuperer_donnees, h, ha, PyResult.isOk]
    · simp [valider_email_et_recuperer_donnees, h, ha, resultMontantDrac]
    · simp [valider_email_et_recuperer_donnees, h, ha, resultMontantDraaf]

/-- Witness for the C2 amended theorem: a 500 on the cases fetch surfaces as
a failure; an exception on the annotations fetch still resolves with `"0"`
amounts. -/
theorem remote_error_surfacing_witness :
    valider_email_et_recuperer_donnees "a@b.com" (some "doc")
        (.resp 500 "oops" (.withRecords [])) (.exn "x") =
      .fail ("Exception: " ++ "Erreur 500: oops") ∧
    (valider_email_et_recuperer_donnees "a@b.com" (some "doc") exCasesOut
        (.exn "ConnectionError")).isOk = true ∧
    resultMontantDrac (valider_email_et_recuperer_donnees "a@b.com" (some "doc") exCasesOut
        (.exn "ConnectionError")) = some "0" ∧
    resultMontantDraaf (valider_email_et_recuperer_donnees "a@b.com" (some "doc") exCasesOut
        (.exn "ConnectionError")) = some "0" :=
  ⟨(remote_error_surfacing "a@b.com" (some "doc") (.resp 500 "oops" (.withRecords []))
      (.exn "x") "Erreur 500: oops").1 rfl,
   ((remote_error_surfacing "a@b.com" (some "doc") exCasesOut
      (.exn "ConnectionError") "ConnectionError").2
     (formatFoundRow [("usager_email", .str "a@b.com"), ("A_titre_du_projet", .str "Proj X"),
        ("N_dossier", .str "D1"), ("id", .int 7)]) rfl rfl).1,
   ((remote_error_surfacing "a@b.com" (some "doc") exCasesOut
      (.exn "ConnectionError") "ConnectionError").2
     (formatFoundRow [("usager_email", .str "a@b.com"), ("A_titre_du_projet", .str "Proj X"),
        ("N_dossier", .str "D1"), ("id", .int 7)]) rfl rfl).2.1,
   ((remote_error_surfacing "a@b.com" (some "doc") exCasesOut
      (.exn "ConnectionError") "ConnectionError").2
     (formatFoundRow [("usager_email", .str "a@b.com"), ("A_titre_du_projet", .str "Proj X"),
        ("N_dossier", .str "D1"), ("id", .int 7)]) rfl rfl).2.2⟩

/-- Claim C5: on successful resolution the email of the assembled record is
always the input email (never read from the remote row); the case number is
read from `N_dossier`, falling back to `number`, defaulting to the empty
string when neither is present; name and project title default to the empty
string when absent.  Presence is that of the selected-row dict, which pandas
pads with every table column (a `NaN` cell of a padded column counts as the
value of the field and propagates, as in the program). -/
theorem assembled_record_defaults (email : String) (docId : Option String)
    (cf af : FetchOutcome) (rd : FoundRow)
    (h : rechercher_dossier_par_email email docId cf = .ok rd) :
    ((resultRecord (valider_email_et_recuperer_donnees email docId cf af)).map
        (fun r => r.email) = some email) ∧
    (∀ v : Json, pyLookup rd.fields "N_dossier" = some v →
      (resultRecord (valider_email_et_recuperer_donnees email docId cf af)).map
        (fun r => r.numero) = some v) ∧
    (pyLookup rd.fields "N_dossier" = none →
      ∀ v : Json, pyLookup rd.fields COL_NUMERO_DOSSIER = some v →
      (resultRecord (valider_email_et_recuperer_donnees email docId cf af)).map
        (fun r => r.numero) = some v) ∧
    (pyLookup rd.fields "N_dossier" = none →
      pyLookup rd.fields COL_NUMERO_DOSSIER = none →
      (resultRecord (valider_email_et_recuperer_donnees email docId cf af)).map
        (fun r => r.numero) = some (.str "")) ∧
    (pyLookup rd.fields COL_NOM = none →
      (resultRecord (valider_email_et_recuperer_donnees email docId cf af)).map
        (fun r => r.nom) = some (.str "")) ∧
    (pyLookup rd.fields COL_TITRE_PROJET = none →
      (resultRecord (valider_email_et_recuperer_donnees email docId cf af)).map
        (fun r => r.titre) = some (.str "")) := by
  cases ha : rechercher_annotations_par_id_dossier rd.id docId af with
  | ok ra =>
    refine ⟨?_, fun v hv => ?_, fun h1 v hv => ?_, fun h1 h2 => ?_, fun hn => ?_, fun ht => ?_⟩ <;>
      simp [valider_email_et_recuperer_donnees, h, ha, resultRecord, pyGetD, *]
  | fail m =>
    refine ⟨?_, fun v hv => ?_, fun h1 v hv => ?_, fun h1 h2 => ?_, fun hn => ?_, fun ht => ?_⟩ <;>
      simp [valider_email_et_recuperer_donnees, h, ha, resultRecord, pyGetD, *]

/-- Witness for the C5 theorem: at the worked example of the spec the email
of the record is the input, the case number comes from `N_dossier`, and the
absent name defaults to the empty string; at a table whose other record
carries `N_dossier`, the pandas-padded `NaN` cell is the value taken (no
defaulting), as in the program. -/
theorem assembled_record_defaults_witness :
    ((resultRecord (valider_email_et_recuperer_donnees "a@b.com" (some "doc") exCasesOut
        (.resp 200 "" (.withRecords [])))).map (fun r => r.email) = some "a@b.com") ∧
    ((resultRecord (valider_email_et_recuperer_donnees "a@b.com" (some "doc") exCasesOut
        (.resp 200 "" (.withRecords [])))).map (fun r => r.numero) = some (.str "D1")) ∧
    ((resultRecord (valider_email_et_recuperer_donnees "a@b.com" (some "doc") exCasesOut
        (.resp 200 "" (.withRecords [])))).map (fun r => r.nom) = some (.str "")) ∧
    ((resultRecord (valider_email_et_recuperer_donnees "a@b.com" (some "doc") exPaddedCasesOut
        (.resp 200 "" (.withRecords [])))).map (fun r => r.numero) = some Json.nan) :=
  ⟨(assembled_record_defaults "a@b.com" (some "doc") exCasesOut
      (.resp 200 "" (.withRecords []))
      (formatFoundRow [("usager_email", .str "a@b.com"), ("A_titre_du_projet", .str "Proj X"),
        ("N_dossier", .str "D1"), ("id", .int 7)]) rfl).1,
   (assembled_record_defaults "a@b.com" (some "doc") exCasesOut
      (.resp 200 "" (.withRecords []))
      (formatFoundRow [("usager_email", .str "a@b.com"), ("A_titre_du_projet", .str "Proj X"),
        ("N_dossier", .str "D1"), ("id", .int 7)]) rfl).2.1 (.str "D1") rfl,
   (assembled_record_defaults "a@b.com" (some "doc") exCasesOut
      (.resp 200 "" (.withRecords []))
      (formatFoundRow [("usager_email", .str "a@b.com"), ("A_titre_du_projet", .str "Proj X"),
        ("N_dossier", .str "D1"), ("id", .int 7)]) rfl).2.2.2.2.1 rfl,
   (assembled_record_defaults "a@b.com" (some "doc") exPaddedCasesOut
      (.resp 200 "" (.withRecords []))
      ⟨.int 1, [("usager_email", .str "a@b.com"), ("N_dossier", Json.nan)]⟩ rfl).2.1
     Json.nan rfl⟩

/-- A successful email check returns exactly the specification email
labels. -/
theorem emailCheck_some_eq_spec (v : Json) (e : List String)
    (h : emailCheck v = some e) : e = specEmailLabels v := by
  cases htr : pyTruthy v with
  | false =>
    simp [emailCheck, htr] at h
    simp [specEmailLabels, htr, h]
  | true =>
    cases v with
    | str s =>
      cases hv : is_valid_email s with
      | false =>
        simp [emailCheck, htr, hv] at h
        simp [specEmailLabels, htr, hv, h]
      | true =>
        simp [emailCheck, htr, hv] at h
        simp [specEmailLabels, htr, hv, h]
    | null => simp [pyTruthy] at htr
    | nan => simp [emailCheck, htr] at h
    | bool b => simp [emailCheck, htr] at h
    | int n => simp [emailCheck, htr] at h
    | arr xs => simp [emailCheck, htr] at h
    | obj kvs => simp [emailCheck, htr] at h

/-- A successful amount check returns exactly the specification amount
labels. -/
theorem montantCheck_some_eq_spec (label : String) (v : Json) (m : List String)
    (h : montantCheck label v = some m) : m = specMontantLabels label v := by
  cases hp : pyInt v with
  | none => simp [montantCheck, hp] at h
  | some n =>
    by_cases hle : n ≤ 0
    · simp [montantCheck, hp, hle] at h
      simp [specMontantLabels, hp, hle, h]
    · simp [montantCheck, hp, hle] at h
      simp [specMontantLabels, hp, hle, h]

/-- Claim C6: whenever `verifier_champs_obligatoires` returns, its label list
is exactly the required-field list of the specification — email syntactically
valid, project title and case number non-empty, both amounts parsed
integers `> 0`, in the fixed order email, project title, case number, DRAC
amount, DRAAF amount (so an email entry always precedes the case-number
entry) — and the name field is never consulted: prepending a `Nom` binding
never changes the result. -/
theorem verifier_required_fields (d : Row) (L : List String) (v : Json)
    (h : verifier_champs_obligatoires d = some L) :
    L = specMissingLabels d ∧
    verifier_champs_obligatoires (("Nom", v) :: d) =
      verifier_champs_obligatoires d := by
  constructor
  · unfold verifier_champs_obligatoires at h
    cases hE : emailCheck (pyGetD d "Email" (.str "")) with
    | none => rw [hE] at h; simp at h
    | some e =>
      rw [hE] at h
      cases hDr : montantCheck "Montant DRAC" (pyGetD d "Montant_DRAC" (.int 0)) with
      | none => rw [hDr] at h; simp at h
      | some dr =>
        rw [hDr] at h
        cases hDa : montantCheck "Montant DRAAF" (pyGetD d "Montant_DRAAF" (.int 0)) with
        | none => rw [hDa] at h; simp at h
        | some da =>
          rw [hDa] at h
          rw [emailCheck_some_eq_spec _ _ hE, montantCheck_some_eq_spec _ _ _ hDr,
            montantCheck_some_eq_spec _ _ _ hDa] at h
          simp only [Option.bind_eq_bind, Option.some_bind, Option.pure_def,
            Option.some.injEq] at h
          subst h
          rfl
  · rfl

/-- Witness for the C6 theorem at the empty record: all five labels are
produced in the fixed order, and a `Nom` binding changes nothing. -/
theorem verifier_required_fields_witness :
    ["Email", "Titre du projet", "Numéro de dossier", "Montant DRAC", "Montant DRAAF"] =
      specMissingLabels [] ∧
    verifier_champs_obligatoires [("Nom", .str "X")] = verifier_champs_obligatoires [] :=
  verifier_required_fields []
    ["Email", "Titre du projet", "Numéro de dossier", "Montant DRAC", "Montant DRAAF"]
    (.str "X") rfl

/-- Claim C7, counterexample: a non-numeric amount string is not coerced to 0:
on an otherwise valid record whose `Montant_DRAC` is `"abc"`, the `int(...)`
call raises and `verifier_champs_obligatoires` does not return normally. -/
theorem unparsable_amount_raises :
    verifier_champs_obligatoires
      [("Email", .str "a@b.com"), ("Titre_du_projet", .str "T"),
       ("Numero_dossier", .str "1"), ("Montant_DRAC", .str "abc"),
       ("Montant_DRAAF", .str "5")] = none := rfl

/-- Claim C7, amended: validation returns normally whenever the email value is
falsy or a string and each amount value is missing (defaulted to the integer
0) or parses as a Python integer; a missing amount is treated as 0 and hence
reported missing.  (A non-numeric amount string instead raises `ValueError`,
which propagates out of the function — see the counterexample.) -/
theorem verifier_returns_on_parsable_amounts (d : Row)
    (he : pyTruthy (pyGetD d "Email" (.str "")) = false ∨
      ∃ s, pyGetD d "Email" (.str "") = .str s)
    (hdr : (pyInt (pyGetD d "Montant_DRAC" (.int 0))).isSome = true)
    (hda : (pyInt (pyGetD d "Montant_DRAAF" (.int 0))).isSome = true) :
    (verifier_champs_obligatoires d).isSome = true ∧
    (pyLookup d "Montant_DRAC" = none →
      "Montant DRAC" ∈ (verifier_champs_obligatoires d).getD []) ∧
    (pyLookup d "Montant_DRAAF" = none →
      "Montant DRAAF" ∈ (verifier_champs_obligatoires d).getD []) := by
  have hE : ∃ e, emailCheck (pyGetD d "Email" (.str "")) = some e := by
    rcases he with h0 | ⟨s, hs⟩
    · exact ⟨["Email"], by simp [emailCheck, h0]⟩
    · rw [hs]
      cases htr : pyTruthy (Json.str s) with
      | false => exact ⟨["Email"], by simp [emailCheck, htr]⟩
      | true =>
        cases hv : is_valid_email s with
        | false => exact ⟨["Email (format invalide)"], by simp [emailCheck, htr, hv]⟩
        | true => exact ⟨[], by simp [emailCheck, htr, hv]⟩
  have hMr : ∃ m, montantCheck "Montant DRAC" (pyGetD d "Montant_DRAC" (.int 0)) = some m := by
    rcases Option.isSome_iff_exists.mp hdr with ⟨n, hn⟩
    by_cases hle : n ≤ 0
    · exact ⟨["Montant DRAC"], by simp [montantCheck, hn, hle]⟩
    · exact ⟨[], by simp [montantCheck, hn, hle]⟩
  have hMa : ∃ m, montantCheck "Montant DRAAF" (pyGetD d "Montant_DRAAF" (.int 0)) = some m := by
    rcases Option.isSome_iff_exists.mp hda with ⟨n, hn⟩
    by_cases hle : n ≤ 0
    · exact ⟨["Montant DRAAF"], by simp [montantCheck, hn, hle]⟩
    · exact ⟨[], by simp [montantCheck, hn, hle]⟩
  obtain ⟨e, hE⟩ := hE
  obtain ⟨mr, hMr⟩ := hMr
  obtain ⟨ma, hMa⟩ := hMa
  refine ⟨by simp [verifier_champs_obligatoires, hE, hMr, hMa], fun hnk => ?_, fun hnk => ?_⟩
  · have h0 : pyGetD d "Montant_DRAC" (.int 0) = .int 0 := by simp [pyGetD, hnk]
    have hDr0 : montantCheck "Montant DRAC" (pyGetD d "Montant_DRAC" (.int 0)) =
        some ["Montant DRAC"] := by simp [montantCheck, h0, pyInt]
    simp [verifier_champs_obligatoires, hE, hDr0, hMa]
  · have h0 : pyGetD d "Montant_DRAAF" (.int 0) = .int 0 := by simp [pyGetD, hnk]
    have hDa0 : montantCheck "Montant DRAAF" (pyGetD d "Montant_DRAAF" (.int 0)) =
        some ["Montant DRAAF"] := by simp [montantCheck, h0, pyInt]
    simp [verifier_champs_obligatoires, hE, hMr, hDa0]

/-- Witness for the C7 amended theorem at the empty record: validation
returns all five labels, both amounts being missing and hence reported. -/
theorem verifier_returns_on_parsable_amounts_witness :
    (verifier_champs_obligatoires []).isSome = true ∧
    ("Montant DRAC" ∈ (verifier_champs_obligatoires []).getD []) ∧
    ("Montant DRAAF" ∈ (verifier_champs_obligatoires []).getD []) :=
  ⟨(verifier_returns_on_parsable_amounts [] (Or.inl rfl) rfl rfl).1,
   (verifier_returns_on_parsable_amounts [] (Or.inl rfl) rfl rfl).2.1 rfl,
   (verifier_returns_on_parsable_amounts [] (Or.inl rfl) rfl rfl).2.2 rfl⟩
